import Mathlib

/-!
Shallow embedding of the repository handle layer (src/repo.rs) of a
safe-language binding over a native version-control engine.  The engine is an
external collaborator reached only through opaque pointers: each wrapper
method below therefore takes the engine outputs (status code, filled output
pointers, callback invocations) as explicit arguments, and the embedding
reproduces exactly the wrapper logic that lives in src/repo.rs — the
try_call error-translation point, the assert and fail invariant checks, and
the construction of child handles from raw pointers.  Engine behaviour that
the wrapped functions delegate to (commit creation, revision resolution,
index reset) is modelled separately from the spec, in definitions whose doc
comments start with "Modelled from the spec".
-/

namespace Git2

/-- Raw engine pointer; the null pointer is 0. -/
abbrev Ptr := Nat

/-- Content hash identifier (git_oid, a fixed-size content hash); modelled as
an abstract value with exact equality. -/
abbrev Oid := Nat

/-- Class carried by a translated engine error (the last-error slot). -/
inductive ErrorClass where
  | generic
  | notFound
  | nonFastForward
deriving DecidableEq, Repr

/-- Structured error translated from an engine status code plus the engine
last-error slot; never partially constructed. -/
structure Error where
  code : Int
  klass : ErrorClass
deriving DecidableEq, Repr

/-- Result of running a wrapper method: a value (Ok), a recoverable
structured error (Err), or a fatal abort — the Rust assert!/fail! macros,
which do not return a value at all. -/
inductive Outcome (α : Type) where
  | ok (val : α)
  | err (e : Error)
  | fatal
deriving DecidableEq, Repr

/-- Sequencing of wrapper steps: errors and fatal aborts propagate. -/
def Outcome.bind {α β : Type} : Outcome α → (α → Outcome β) → Outcome β
  | .ok a, f => f a
  | .err e, _ => .err e
  | .fatal, _ => .fatal

/-- Modelled from the spec: the single error-translation point (the
try_call! macro, whose definition is not under src/).  A status the engine
reports as failure (negative, in the engine convention) is translated into a
structured error read from the last-error slot; a non-negative status is
success, and the status value itself is passed through to the caller (the
is_empty wrapper inspects that value). -/
def tryCall (ret : Int) : Outcome Int :=
  if ret < 0 then .err { code := ret, klass := .generic } else .ok ret

/-- An owned repository handle wrapping exactly one opaque engine repository
pointer (struct Repository, src/repo.rs lines 22-25). -/
structure Repository where
  raw : Ptr
deriving DecidableEq, Repr

/-- Repository::from_raw (src lines 77-82): wraps the pointer, taking
ownership; performs no validation. -/
def Repository.from_raw (ptr : Ptr) : Repository := { raw := ptr }

/-- Engine output of a call filling one status code and one output pointer. -/
structure EngineOut where
  status : Int
  ptr : Ptr
deriving DecidableEq, Repr

/-- Child handle: object.  Object::from_raw receives the repository reference
(src line 100 and line 115 pass self), so the constructed value carries a
back-reference to its parent repository. -/
structure Object where
  repo : Repository
  raw : Ptr
deriving DecidableEq, Repr

/-- Object::from_raw with the parent repository argument, as called from
src/repo.rs. -/
def Object.from_raw (repo : Repository) (ptr : Ptr) : Object :=
  { repo := repo, raw := ptr }

/-- Child handle: reference; Reference::from_raw receives self (src line 303). -/
structure Reference where
  repo : Repository
  raw : Ptr
deriving DecidableEq, Repr

/-- Reference::from_raw with the parent repository argument. -/
def Reference.from_raw (repo : Repository) (ptr : Ptr) : Reference :=
  { repo := repo, raw := ptr }

/-- Child handle: remote; Remote::from_raw receives self (src line 216). -/
structure Remote where
  repo : Repository
  raw : Ptr
deriving DecidableEq, Repr

/-- Remote::from_raw with the parent repository argument. -/
def Remote.from_raw (repo : Repository) (ptr : Ptr) : Remote :=
  { repo := repo, raw := ptr }

/-- Child handle: submodule; Submodule::from_raw receives the repository
(src lines 356 and 625). -/
structure Submodule where
  repo : Repository
  raw : Ptr
deriving DecidableEq, Repr

/-- Submodule::from_raw with the parent repository argument. -/
def Submodule.from_raw (repo : Repository) (ptr : Ptr) : Submodule :=
  { repo := repo, raw := ptr }

/-- Child handle: commit; Commit::from_raw receives self (src line 510). -/
structure Commit where
  repo : Repository
  raw : Ptr
deriving DecidableEq, Repr

/-- Commit::from_raw with the parent repository argument. -/
def Commit.from_raw (repo : Repository) (ptr : Ptr) : Commit :=
  { repo := repo, raw := ptr }

/-- Child handle: tree; Tree::from_raw receives self (src line 647). -/
structure Tree where
  repo : Repository
  raw : Ptr
deriving DecidableEq, Repr

/-- Tree::from_raw with the parent repository argument. -/
def Tree.from_raw (repo : Repository) (ptr : Ptr) : Tree :=
  { repo := repo, raw := ptr }

/-- Child handle: blob; Blob::from_raw receives self (src line 430). -/
structure Blob where
  repo : Repository
  raw : Ptr
deriving DecidableEq, Repr

/-- Blob::from_raw with the parent repository argument. -/
def Blob.from_raw (repo : Repository) (ptr : Ptr) : Blob :=
  { repo := repo, raw := ptr }

/-- Reference iterator handle; References::from_raw receives self
(src line 312). -/
structure References where
  repo : Repository
  raw : Ptr
deriving DecidableEq, Repr

/-- References::from_raw with the parent repository argument. -/
def References.from_raw (repo : Repository) (ptr : Ptr) : References :=
  { repo := repo, raw := ptr }

/-- Branch iterator handle; Branches::from_raw receives self (src line 367). -/
structure Branches where
  repo : Repository
  raw : Ptr
deriving DecidableEq, Repr

/-- Branches::from_raw with the parent repository argument. -/
def Branches.from_raw (repo : Repository) (ptr : Ptr) : Branches :=
  { repo := repo, raw := ptr }

/-- Child handle: branch, which wraps a reference rather than duplicating its
resource (src line 455: Branch::wrap(Reference::from_raw(self, raw))). -/
structure Branch where
  inner : Reference
deriving DecidableEq, Repr

/-- Branch::wrap as called from src/repo.rs. -/
def Branch.wrap (r : Reference) : Branch := { inner := r }

/-- Child handle: index.  Index::from_raw receives ONLY the raw pointer
(src line 379: Index::from_raw(raw), no self argument): the constructed
value carries no repository back-reference at all. -/
structure Index where
  raw : Ptr
deriving DecidableEq, Repr

/-- Index::from_raw, which takes no parent repository argument. -/
def Index.from_raw (ptr : Ptr) : Index := { raw := ptr }

/-- Child handle: config.  Config::from_raw receives ONLY the raw pointer
(src line 392: Config::from_raw(raw), no self argument): the constructed
value carries no repository back-reference at all. -/
structure Config where
  raw : Ptr
deriving DecidableEq, Repr

/-- Config::from_raw, which takes no parent repository argument. -/
def Config.from_raw (ptr : Ptr) : Config := { raw := ptr }

/-- Repository::open (src lines 31-38): translate the status through
try_call, then wrap the output pointer with from_raw.  There is NO null
check on the output pointer on the success path. -/
def Repository.open (eng : EngineOut) : Outcome Repository :=
  Outcome.bind (tryCall eng.status) fun _ =>
    .ok (Repository.from_raw eng.ptr)

/-- Repository::index (src lines 375-381): try_call, then
Index::from_raw(raw) with no self argument. -/
def Repository.index (_self : Repository) (eng : EngineOut) : Outcome Index :=
  Outcome.bind (tryCall eng.status) fun _ =>
    .ok (Index.from_raw eng.ptr)

/-- Repository::config (src lines 388-394): try_call, then
Config::from_raw(raw) with no self argument. -/
def Repository.config (_self : Repository) (eng : EngineOut) : Outcome Config :=
  Outcome.bind (tryCall eng.status) fun _ =>
    .ok (Config.from_raw eng.ptr)

/-- Repository::find_remote (src lines 212-218). -/
def Repository.find_remote (self : Repository) (eng : EngineOut) : Outcome Remote :=
  Outcome.bind (tryCall eng.status) fun _ =>
    .ok (Remote.from_raw self eng.ptr)

/-- Repository::find_reference (src lines 568-575). -/
def Repository.find_reference (self : Repository) (eng : EngineOut) : Outcome Reference :=
  Outcome.bind (tryCall eng.status) fun _ =>
    .ok (Reference.from_raw self eng.ptr)

/-- Repository::find_commit (src lines 506-512). -/
def Repository.find_commit (self : Repository) (eng : EngineOut) : Outcome Commit :=
  Outcome.bind (tryCall eng.status) fun _ =>
    .ok (Commit.from_raw self eng.ptr)

/-- Repository::find_tree (src lines 643-649). -/
def Repository.find_tree (self : Repository) (eng : EngineOut) : Outcome Tree :=
  Outcome.bind (tryCall eng.status) fun _ =>
    .ok (Tree.from_raw self eng.ptr)

/-- Repository::find_blob (src lines 426-432). -/
def Repository.find_blob (self : Repository) (eng : EngineOut) : Outcome Blob :=
  Outcome.bind (tryCall eng.status) fun _ =>
    .ok (Blob.from_raw self eng.ptr)

/-- Repository::find_submodule (src lines 633-640). -/
def Repository.find_submodule (self : Repository) (eng : EngineOut) : Outcome Submodule :=
  Outcome.bind (tryCall eng.status) fun _ =>
    .ok (Submodule.from_raw self eng.ptr)

/-- Repository::find_branch (src lines 460-468): wraps a reference built
with self. -/
def Repository.find_branch (self : Repository) (eng : EngineOut) : Outcome Branch :=
  Outcome.bind (tryCall eng.status) fun _ =>
    .ok (Branch.wrap (Reference.from_raw self eng.ptr))

/-- Repository::references (src lines 308-314). -/
def Repository.references (self : Repository) (eng : EngineOut) : Outcome References :=
  Outcome.bind (tryCall eng.status) fun _ =>
    .ok (References.from_raw self eng.ptr)

/-- Repository::branches (src lines 363-369). -/
def Repository.branches (self : Repository) (eng : EngineOut) : Outcome Branches :=
  Outcome.bind (tryCall eng.status) fun _ =>
    .ok (Branches.from_raw self eng.ptr)

/-- Repository::revparse_single (src lines 108-116): try_call, then
assert!(!obj.is_null()) — a null output pointer on the success path is a
fatal abort — then Object::from_raw(self, obj). -/
def Repository.revparse_single (self : Repository) (eng : EngineOut) : Outcome Object :=
  Outcome.bind (tryCall eng.status) fun _ =>
    if eng.ptr = 0 then .fatal
    else .ok (Object.from_raw self eng.ptr)

/-- Mode flags of the raw git_revspec structure filled by the engine
revparse call; the wrapper only inspects the single flag (src line 98). -/
structure RevparseFlags where
  single : Bool
  range : Bool
  mergeBase : Bool
deriving DecidableEq, Repr

/-- Raw git_revspec output structure: two object pointers and the flags
(src lines 89-93). -/
structure RawRevspec where
  frm : Ptr
  toPtr : Ptr
  flags : RevparseFlags
deriving DecidableEq, Repr

/-- Engine output of git_revparse: a status code and the filled revspec. -/
structure RevparseOut where
  status : Int
  rev : RawRevspec
deriving DecidableEq, Repr

/-- Resulting revision specification returned to the caller: a pair of
optional endpoint objects. -/
structure Revspec where
  frm : Option Object
  toObj : Option Object
deriving DecidableEq, Repr

/-- Revspec::from_objects as called from src line 101. -/
def Revspec.from_objects (f t : Option Object) : Revspec :=
  { frm := f, toObj := t }

/-- Repository::revparse (src lines 88-105): try_call on the status; if the
single flag is set, assert!(raw.to.is_null()) — a present to pointer is a
fatal abort — and return Ok(Revspec::from_objects(Some(from), None));
otherwise the code runs fail!(), an unconditional fatal abort: the range
case is never returned to the caller. -/
def Repository.revparse (self : Repository) (eng : RevparseOut) : Outcome Revspec :=
  Outcome.bind (tryCall eng.status) fun _ =>
    if eng.rev.flags.single then
      if eng.rev.toPtr = 0 then
        .ok (Revspec.from_objects (some (Object.from_raw self eng.rev.frm)) none)
      else .fatal
    else .fatal

/-- Repository::is_bare (src lines 119-121): a plain boolean, true exactly
when the engine call returns 1; no failure path. -/
def Repository.is_bare (_self : Repository) (engineRet : Int) : Bool :=
  engineRet == 1

/-- Repository::is_shallow (src lines 124-126): a plain boolean, true
exactly when the engine call returns 1; no failure path. -/
def Repository.is_shallow (_self : Repository) (engineRet : Int) : Bool :=
  engineRet == 1

/-- Repository::is_empty (src lines 129-134): the engine status goes through
try_call (so an engine failure becomes a structured error), and on success
the returned value is compared against 1. -/
def Repository.is_empty (_self : Repository) (engineRet : Int) : Outcome Bool :=
  Outcome.bind (tryCall engineRet) fun empty =>
    .ok (empty == 1)

/-- Closed set of repository states (enum RepositoryState, used by
src lines 156-167); exactly ten constructors. -/
inductive RepositoryState where
  | Clean
  | Merge
  | Revert
  | CherryPick
  | Bisect
  | Rebase
  | RebaseInteractive
  | RebaseMerge
  | ApplyMailbox
  | ApplyMailboxOrRebase
deriving DecidableEq, Repr

/-- Modelled from the spec: the engine repository-state enumeration codes
(the raw binding declarations are not under src/); ten consecutive codes in
the declaration order used by the check! macro in src lines 156-167. -/
def GIT_REPOSITORY_STATE_NONE : Int := 0

/-- Engine code for the merge-in-progress state. -/
def GIT_REPOSITORY_STATE_MERGE : Int := 1

/-- Engine code for the revert-in-progress state. -/
def GIT_REPOSITORY_STATE_REVERT : Int := 2

/-- Engine code for the cherry-pick-in-progress state. -/
def GIT_REPOSITORY_STATE_CHERRYPICK : Int := 3

/-- Engine code for the bisect state. -/
def GIT_REPOSITORY_STATE_BISECT : Int := 4

/-- Engine code for the rebase state. -/
def GIT_REPOSITORY_STATE_REBASE : Int := 5

/-- Engine code for the interactive-rebase state. -/
def GIT_REPOSITORY_STATE_REBASE_INTERACTIVE : Int := 6

/-- Engine code for the rebase-merge state. -/
def GIT_REPOSITORY_STATE_REBASE_MERGE : Int := 7

/-- Engine code for the apply-mailbox state. -/
def GIT_REPOSITORY_STATE_APPLY_MAILBOX : Int := 8

/-- Engine code for the apply-mailbox-or-rebase state. -/
def GIT_REPOSITORY_STATE_APPLY_MAILBOX_OR_REBASE : Int := 9

/-- The list of engine state codes the check! macro in src lines 156-167
compares against, in order. -/
def knownStateCodes : List Int :=
  [GIT_REPOSITORY_STATE_NONE, GIT_REPOSITORY_STATE_MERGE,
   GIT_REPOSITORY_STATE_REVERT, GIT_REPOSITORY_STATE_CHERRYPICK,
   GIT_REPOSITORY_STATE_BISECT, GIT_REPOSITORY_STATE_REBASE,
   GIT_REPOSITORY_STATE_REBASE_INTERACTIVE, GIT_REPOSITORY_STATE_REBASE_MERGE,
   GIT_REPOSITORY_STATE_APPLY_MAILBOX,
   GIT_REPOSITORY_STATE_APPLY_MAILBOX_OR_REBASE]

/-- Repository::state (src lines 147-168): the check! macro chains equality
tests of the engine state code against the ten known enum codes, returning
the matching state; any other value runs fail!("unknown repository state"),
a fatal abort, and never returns a value or a recoverable error. -/
def Repository.state (_self : Repository) (code : Int) : Outcome RepositoryState :=
  if code = GIT_REPOSITORY_STATE_NONE then .ok .Clean
  else if code = GIT_REPOSITORY_STATE_MERGE then .ok .Merge
  else if code = GIT_REPOSITORY_STATE_REVERT then .ok .Revert
  else if code = GIT_REPOSITORY_STATE_CHERRYPICK then .ok .CherryPick
  else if code = GIT_REPOSITORY_STATE_BISECT then .ok .Bisect
  else if code = GIT_REPOSITORY_STATE_REBASE then .ok .Rebase
  else if code = GIT_REPOSITORY_STATE_REBASE_INTERACTIVE then .ok .RebaseInteractive
  else if code = GIT_REPOSITORY_STATE_REBASE_MERGE then .ok .RebaseMerge
  else if code = GIT_REPOSITORY_STATE_APPLY_MAILBOX then .ok .ApplyMailbox
  else if code = GIT_REPOSITORY_STATE_APPLY_MAILBOX_OR_REBASE then .ok .ApplyMailboxOrRebase
  else .fatal

/-- The append callback of Repository::submodules (src lines 347-359): for
one delivered name, run the engine submodule lookup; assert_eq!(rc, 0) — a
non-zero lookup result is a fatal abort — then push
Submodule::from_raw(repo, raw) onto the collected vector. -/
def append (repo : Repository) (lookup : String → Int × Ptr)
    (acc : List Submodule) (name : String) : Outcome (List Submodule) :=
  let r := lookup name
  if r.1 = 0 then .ok (acc ++ [Submodule.from_raw repo r.2])
  else .fatal

/-- The callback-driven traversal of git_submodule_foreach: the engine
invokes the append callback once per submodule name, in order, mutating the
collected vector. -/
def foreachCollect (repo : Repository) (lookup : String → Int × Ptr) :
    List String → List Submodule → Outcome (List Submodule)
  | [], acc => .ok acc
  | n :: rest, acc =>
    Outcome.bind (append repo lookup acc n) fun acc2 =>
      foreachCollect repo lookup rest acc2

/-- Repository::submodules (src lines 328-360): collect the callback
invocations (the engine delivers names in callback order, each looked up and
pushed by append), then translate the foreach status through try_call and
return the collected vector. -/
def Repository.submodules (self : Repository) (names : List String)
    (lookup : String → Int × Ptr) (status : Int) : Outcome (List Submodule) :=
  Outcome.bind (foreachCollect self lookup names []) fun ret =>
    Outcome.bind (tryCall status) fun _ =>
      .ok ret

/-- An owned (name, email, timestamp) identity value. -/
structure Signature where
  name : String
  email : String
  time : Int
deriving DecidableEq, Repr

/-- The exact argument record the commit wrapper marshals for the engine
commit-creation call (src lines 490-499), field by field in call order. -/
structure EngineCommitCall where
  repoPtr : Ptr
  update_ref : Option String
  author : Signature
  committer : Signature
  messageEncoding : Option String
  message : String
  treePtr : Ptr
  parentCount : Nat
  parents : List Ptr
deriving DecidableEq, Repr

/-- The marshalling step of Repository::commit (src lines 478-499): the
message-encoding argument is the constant null pointer (line 495,
0 as *const c_char), the parent pointer vector preserves the order of the
parents slice, and parentCount is its length. -/
def Repository.commitCall (self : Repository) (update_ref : Option String)
    (author committer : Signature) (message : String) (tree : Ptr)
    (parents : List Ptr) : EngineCommitCall :=
  { repoPtr := self.raw
    update_ref := update_ref
    author := author
    committer := committer
    messageEncoding := none
    message := message
    treePtr := tree
    parentCount := parents.length
    parents := parents }

/-- Lookup in an association list of named entries, first match wins. -/
def lookupEntry : List (String × Oid) → String → Option Oid
  | [], _ => none
  | e :: rest, k => if e.1 = k then some e.2 else lookupEntry rest k

/-- Update or insert one named entry in an association list. -/
def setRef : List (String × Oid) → String → Oid → List (String × Oid)
  | [], k, v => [(k, v)]
  | e :: rest, k, v => if e.1 = k then (e.1, v) :: rest else e :: setRef rest k v

/-- Reference store of the engine, as far as the commit contract observes
it: a map from reference names to their current target hashes. -/
structure EngineState where
  refs : List (String × Oid)
deriving DecidableEq, Repr

/-- The structured error for a non-fast-forward reference update conflict. -/
def nonFastForwardError : Error :=
  { code := -15, klass := .nonFastForward }

/-- Modelled from the spec: the engine commit-creation call
(git_commit_create is engine code, not under src/).  It stores the new
commit object under a fresh content hash; with no update_ref the reference
store is untouched; with an update_ref naming a reference that does not
exist yet, the reference is created at the new commit; with an update_ref
naming an existing reference, the engine requires the current target to
equal the first parent — otherwise it fails as a non-fast-forward conflict
and leaves the reference store unchanged. -/
def engineCommitCreate (st : EngineState) (update_ref : Option String)
    (parents : List Oid) (newOid : Oid) : Except Error Oid × EngineState :=
  match update_ref with
  | none => (.ok newOid, st)
  | some name =>
    match lookupEntry st.refs name with
    | none => (.ok newOid, { refs := setRef st.refs name newOid })
    | some cur =>
      match parents with
      | p :: _ =>
        if cur = p then (.ok newOid, { refs := setRef st.refs name newOid })
        else (.error nonFastForwardError, st)
      | [] => (.error nonFastForwardError, st)

/-- Repository::commit (src lines 478-502): marshal the arguments with
commitCall (parents become an ordered pointer vector, the engine resolves
each pointer to the commit hash oidOf gives), run the engine commit
creation, and translate the engine result: failure becomes a structured
error, success returns Ok(Oid).  The resulting engine state is returned
alongside so the effect on the named reference is observable. -/
def Repository.commit (self : Repository) (st : EngineState)
    (update_ref : Option String) (author committer : Signature)
    (message : String) (tree : Ptr) (parents : List Ptr)
    (oidOf : Ptr → Oid) (newOid : Oid) : Outcome Oid × EngineState :=
  let call := Repository.commitCall self update_ref author committer message tree parents
  let r := engineCommitCreate st call.update_ref (call.parents.map oidOf) newOid
  match r.1 with
  | .error e => (.err e, r.2)
  | .ok oid => (.ok oid, r.2)

/-- Revision-resolution behaviour of the engine, as far as the revparse
wrappers observe it: a resolution function from spec strings to object
pointers, and the content hash of each object. -/
structure EngineResolver where
  resolve : String → Option Ptr
  oidOf : Ptr → Oid

/-- Modelled from the spec: the engine single-target resolution entry point
(git_revparse_single is engine code, not under src/): on a spec the
resolution succeeds on, it returns success and the resolved object pointer;
otherwise a not-found failure. -/
def engineRevparseSingle (e : EngineResolver) (spec : String) : EngineOut :=
  match e.resolve spec with
  | some p => { status := 0, ptr := p }
  | none => { status := -3, ptr := 0 }

/-- Modelled from the spec: the engine revspec resolution entry point
(git_revparse is engine code, not under src/): a single-target spec is
resolved by the same resolution function as the single entry point, filling
from with the resolved object, leaving to null and setting the single flag;
an unresolvable spec is a not-found failure. -/
def engineRevparse (e : EngineResolver) (spec : String) : RevparseOut :=
  match e.resolve spec with
  | some p =>
    { status := 0
      rev := { frm := p, toPtr := 0
               flags := { single := true, range := false, mergeBase := false } } }
  | none =>
    { status := -3
      rev := { frm := 0, toPtr := 0
               flags := { single := false, range := false, mergeBase := false } } }

/-- Object::id: the content hash of the object the handle wraps, given by
the engine for the wrapped pointer. -/
def Object.id (e : EngineResolver) (o : Object) : Oid :=
  e.oidOf o.raw

/-- Modelled from the spec helper: remove from the index every entry whose
path matches the given path list. -/
def dropPaths (paths : List String) : List (String × Oid) → List (String × Oid)
  | [] => []
  | e :: rest =>
    if e.1 ∈ paths then dropPaths paths rest
    else e :: dropPaths paths rest

/-- Modelled from the spec helper: the entries of the target tree at each
of the given paths, in path order; paths absent from the tree contribute
nothing. -/
def entriesFromTree (tree : List (String × Oid)) : List String → List (String × Oid)
  | [] => []
  | p :: rest =>
    match lookupEntry tree p with
    | some o => (p, o) :: entriesFromTree tree rest
    | none => entriesFromTree tree rest

/-- Modelled from the spec: the engine index-reset call (git_reset_default
is engine code, not under src/).  The scope of updated index entries is
exactly the given path list: entries whose path is outside the list are
kept unchanged; for a path in the list, with a target tree the entry
becomes the entry of that tree at the path (absent if the tree has none),
and with a null target (the wrapper passes null for None, src line 290)
the entry is removed. -/
def engineResetDefault (index : List (String × Oid))
    (target : Option (List (String × Oid))) (paths : List String) :
    List (String × Oid) :=
  match target with
  | none => dropPaths paths index
  | some tree => dropPaths paths index ++ entriesFromTree tree paths

/-- Repository::reset_default (src lines 279-296): collect the paths into a
string array in order, pass the target pointer (null when target is None),
and route the engine status through try_call (src line 293): a failing
status becomes a structured error and the index is left unchanged, a
success status returns Ok(()) with the engine update applied; the
resulting index state is returned alongside so the effect is observable. -/
def Repository.reset_default (_self : Repository)
    (index : List (String × Oid)) (target : Option (List (String × Oid)))
    (paths : List String) (status : Int) :
    Outcome Unit × List (String × Oid) :=
  match tryCall status with
  | .ok _ => (.ok (), engineResetDefault index target paths)
  | .err e => (.err e, index)
  | .fatal => (.fatal, index)

/-- Concrete engine resolver used to exhibit a repository with a resolvable
head: HEAD resolves to object pointer 7, the content hash of a pointer is
the pointer value itself. -/
def headResolver : EngineResolver :=
  { resolve := fun s => if s = "HEAD" then some 7 else none
    oidOf := fun q => q }

/-- Helper: looking up the key just set by setRef yields the new value. -/
theorem lookupEntry_setRef_self (l : List (String × Oid)) (k : String) (v : Oid) :
    lookupEntry (setRef l k v) k = some v := by
  induction l with
  | nil => simp [setRef, lookupEntry]
  | cons e rest ih =>
    by_cases h : e.1 = k
    · simp [setRef, lookupEntry, h]
    · simp [setRef, lookupEntry, h, ih]

/-- Claim C10: for every call to commit, regardless of its arguments, the
message-encoding argument marshalled for the engine commit-creation call is
the null pointer (none), so every commit created through this interface
uses the engine default message encoding and no caller can select an
alternative encoding. -/
theorem commit_message_encoding_always_null :
    ∀ (self : Repository) (update_ref : Option String)
      (author committer : Signature) (message : String) (tree : Ptr)
      (parents : List Ptr),
      (Repository.commitCall self update_ref author committer message tree
          parents).messageEncoding = none := by
  intro self update_ref author committer message tree parents
  rfl

/-- Claim C8: is_bare and is_shallow are pure boolean queries with no
failure path (their result type is Bool), true exactly when the engine
reports the value 1; is_empty is fallible: an engine-reported failure
becomes a structured error and otherwise the result is true exactly when
the engine reports the value 1. -/
theorem boolean_queries_contract :
    ∀ (self : Repository) (v : Int),
      (Repository.is_bare self v = true ↔ v = 1) ∧
      (Repository.is_shallow self v = true ↔ v = 1) ∧
      (v < 0 →
        Repository.is_empty self v = .err { code := v, klass := .generic }) ∧
      (0 ≤ v → Repository.is_empty self v = .ok (v == 1)) := by
  intro self v
  refine ⟨?_, ?_, ?_, ?_⟩
  · simp [Repository.is_bare]
  · simp [Repository.is_shallow]
  · intro h
    simp [Repository.is_empty, tryCall, Outcome.bind, h]
  · intro h
    simp [Repository.is_empty, tryCall, Outcome.bind, not_lt.mpr h]

/-- Witness for C8 at concrete engine returns: value 1 makes is_bare true,
a negative status makes is_empty a structured error, value 1 makes
is_empty true. -/
theorem boolean_queries_contract_witness :
    Repository.is_bare (Repository.from_raw 1) 1 = true ∧
    Repository.is_empty (Repository.from_raw 1) (-2) =
      .err { code := -2, klass := .generic } ∧
    Repository.is_empty (Repository.from_raw 1) 1 = .ok true := by
  refine ⟨?_, ?_, ?_⟩
  · exact (boolean_queries_contract (Repository.from_raw 1) 1).1.mpr rfl
  · exact (boolean_queries_contract (Repository.from_raw 1) (-2)).2.2.1 (by decide)
  · have h := (boolean_queries_contract (Repository.from_raw 1) 1).2.2.2 (by decide)
    simpa using h

/-- Claim C4: state is a total mapping from the engine repository-state
enumeration onto the closed set of exactly ten states: each of the ten
known engine codes maps to its corresponding state, every state is the
image of a known code, and any unrecognized integer value from the engine
is a fatal abort, never a returned value or a recoverable error. -/
theorem state_total_closed_mapping :
    (∀ self : Repository,
      Repository.state self GIT_REPOSITORY_STATE_NONE = .ok .Clean ∧
      Repository.state self GIT_REPOSITORY_STATE_MERGE = .ok .Merge ∧
      Repository.state self GIT_REPOSITORY_STATE_REVERT = .ok .Revert ∧
      Repository.state self GIT_REPOSITORY_STATE_CHERRYPICK = .ok .CherryPick ∧
      Repository.state self GIT_REPOSITORY_STATE_BISECT = .ok .Bisect ∧
      Repository.state self GIT_REPOSITORY_STATE_REBASE = .ok .Rebase ∧
      Repository.state self GIT_REPOSITORY_STATE_REBASE_INTERACTIVE = .ok .RebaseInteractive ∧
      Repository.state self GIT_REPOSITORY_STATE_REBASE_MERGE = .ok .RebaseMerge ∧
      Repository.state self GIT_REPOSITORY_STATE_APPLY_MAILBOX = .ok .ApplyMailbox ∧
      Repository.state self GIT_REPOSITORY_STATE_APPLY_MAILBOX_OR_REBASE = .ok .ApplyMailboxOrRebase) ∧
    (∀ (self : Repository) (code : Int), code ∉ knownStateCodes →
      Repository.state self code = .fatal) ∧
    (∀ s : RepositoryState, ∃ code, code ∈ knownStateCodes ∧
      ∀ self : Repository, Repository.state self code = .ok s) := by
  refine ⟨?_, ?_, ?_⟩
  · intro self
    exact ⟨rfl, rfl, rfl, rfl, rfl, rfl, rfl, rfl, rfl, rfl⟩
  · intro self code h
    have n0 : ¬(code = GIT_REPOSITORY_STATE_NONE) := fun hc => h (by rw [hc]; decide)
    have n1 : ¬(code = GIT_REPOSITORY_STATE_MERGE) := fun hc => h (by rw [hc]; decide)
    have n2 : ¬(code = GIT_REPOSITORY_STATE_REVERT) := fun hc => h (by rw [hc]; decide)
    have n3 : ¬(code = GIT_REPOSITORY_STATE_CHERRYPICK) := fun hc => h (by rw [hc]; decide)
    have n4 : ¬(code = GIT_REPOSITORY_STATE_BISECT) := fun hc => h (by rw [hc]; decide)
    have n5 : ¬(code = GIT_REPOSITORY_STATE_REBASE) := fun hc => h (by rw [hc]; decide)
    have n6 : ¬(code = GIT_REPOSITORY_STATE_REBASE_INTERACTIVE) := fun hc => h (by rw [hc]; decide)
    have n7 : ¬(code = GIT_REPOSITORY_STATE_REBASE_MERGE) := fun hc => h (by rw [hc]; decide)
    have n8 : ¬(code = GIT_REPOSITORY_STATE_APPLY_MAILBOX) := fun hc => h (by rw [hc]; decide)
    have n9 : ¬(code = GIT_REPOSITORY_STATE_APPLY_MAILBOX_OR_REBASE) := fun hc => h (by rw [hc]; decide)
    simp [Repository.state, n0, n1, n2, n3, n4, n5, n6, n7, n8, n9]
  · intro s
    cases s with
    | Clean => exact ⟨GIT_REPOSITORY_STATE_NONE, by decide, fun _ => rfl⟩
    | Merge => exact ⟨GIT_REPOSITORY_STATE_MERGE, by decide, fun _ => rfl⟩
    | Revert => exact ⟨GIT_REPOSITORY_STATE_REVERT, by decide, fun _ => rfl⟩
    | CherryPick => exact ⟨GIT_REPOSITORY_STATE_CHERRYPICK, by decide, fun _ => rfl⟩
    | Bisect => exact ⟨GIT_REPOSITORY_STATE_BISECT, by decide, fun _ => rfl⟩
    | Rebase => exact ⟨GIT_REPOSITORY_STATE_REBASE, by decide, fun _ => rfl⟩
    | RebaseInteractive => exact ⟨GIT_REPOSITORY_STATE_REBASE_INTERACTIVE, by decide, fun _ => rfl⟩
    | RebaseMerge => exact ⟨GIT_REPOSITORY_STATE_REBASE_MERGE, by decide, fun _ => rfl⟩
    | ApplyMailbox => exact ⟨GIT_REPOSITORY_STATE_APPLY_MAILBOX, by decide, fun _ => rfl⟩
    | ApplyMailboxOrRebase => exact ⟨GIT_REPOSITORY_STATE_APPLY_MAILBOX_OR_REBASE, by decide, fun _ => rfl⟩

/-- Witness for C4: the unrecognized engine value 11 aborts fatally, and the
known bisect code maps to the bisect state. -/
theorem state_total_closed_mapping_witness :
    Repository.state (Repository.from_raw 1) 11 = .fatal ∧
    Repository.state (Repository.from_raw 1) GIT_REPOSITORY_STATE_BISECT = .ok .Bisect := by
  constructor
  · exact state_total_closed_mapping.2.1 (Repository.from_raw 1) 11 (by decide)
  · exact (state_total_closed_mapping.1 (Repository.from_raw 1)).2.2.2.2.1

/-- Claim C1 counterexample: an engine-successful range resolution (status
0, single flag clear, both endpoint pointers filled) makes revparse run
fail!, an unconditional fatal abort — the endpoint pair the claim promises
for a range expression is never returned. -/
theorem revparse_range_result_is_fatal :
    Repository.revparse (Repository.from_raw 1)
        { status := 0
          rev := { frm := 3, toPtr := 4
                   flags := { single := false, range := true, mergeBase := false } } }
      = .fatal ∧
    Repository.revparse (Repository.from_raw 1)
        { status := 0
          rev := { frm := 3, toPtr := 4
                   flags := { single := false, range := true, mergeBase := false } } }
      ≠ .ok (Revspec.from_objects
          (some (Object.from_raw (Repository.from_raw 1) 3))
          (some (Object.from_raw (Repository.from_raw 1) 4))) := by
  exact ⟨rfl, by decide⟩

/-- Claim C1 (amended): on engine success revparse handles only
single-target results: with the single flag set and a null to pointer it
returns the from endpoint with the to endpoint absent; a present to pointer
together with the single flag is a fatal internal-invariant violation, not
a recoverable error; and a non-single (range) result is likewise an
unconditional fatal failure, so both endpoints are never returned. -/
theorem revparse_single_only_shape :
    ∀ (self : Repository) (eng : RevparseOut),
      (eng.status < 0 →
        Repository.revparse self eng =
          .err { code := eng.status, klass := .generic }) ∧
      (0 ≤ eng.status → eng.rev.flags.single = true → eng.rev.toPtr = 0 →
        Repository.revparse self eng =
          .ok (Revspec.from_objects (some (Object.from_raw self eng.rev.frm)) none)) ∧
      (0 ≤ eng.status → eng.rev.flags.single = true → eng.rev.toPtr ≠ 0 →
        Repository.revparse self eng = .fatal) ∧
      (0 ≤ eng.status → eng.rev.flags.single = false →
        Repository.revparse self eng = .fatal) := by
  intro self eng
  refine ⟨?_, ?_, ?_, ?_⟩
  · intro h
    simp [Repository.revparse, tryCall, Outcome.bind, h]
  · intro h1 h2 h3
    simp [Repository.revparse, tryCall, Outcome.bind, not_lt.mpr h1, h2, h3]
  · intro h1 h2 h3
    simp [Repository.revparse, tryCall, Outcome.bind, not_lt.mpr h1, h2, h3]
  · intro h1 h2
    simp [Repository.revparse, tryCall, Outcome.bind, not_lt.mpr h1, h2]

/-- Witness for C1 at concrete engine outputs: a single result with null to
pointer yields the from endpoint only, and a single result with a filled to
pointer aborts fatally. -/
theorem revparse_single_only_shape_witness :
    Repository.revparse (Repository.from_raw 1)
        { status := 0
          rev := { frm := 7, toPtr := 0
                   flags := { single := true, range := false, mergeBase := false } } }
      = .ok (Revspec.from_objects
          (some (Object.from_raw (Repository.from_raw 1) 7)) none) ∧
    Repository.revparse (Repository.from_raw 1)
        { status := 0
          rev := { frm := 7, toPtr := 9
                   flags := { single := true, range := false, mergeBase := false } } }
      = .fatal := by
  constructor
  · exact (revparse_single_only_shape (Repository.from_raw 1)
      { status := 0
        rev := { frm := 7, toPtr := 0
                 flags := { single := true, range := false, mergeBase := false } } }).2.1
      (by decide) (by decide) (by decide)
  · exact (revparse_single_only_shape (Repository.from_raw 1)
      { status := 0
        rev := { frm := 7, toPtr := 9
                 flags := { single := true, range := false, mergeBase := false } } }).2.2.1
      (by decide) (by decide) (by decide)

/-- Claim C2 counterexample: index and config values built from two DISTINCT
repository handles out of the same engine output are identical, because
Index::from_raw and Config::from_raw receive no repository argument — the
constructed child carries no back-reference binding it to the repository
that created it. -/
theorem index_config_carry_no_parent :
    Repository.from_raw 1 ≠ Repository.from_raw 2 ∧
    Repository.index (Repository.from_raw 1) { status := 0, ptr := 7 } =
      Repository.index (Repository.from_raw 2) { status := 0, ptr := 7 } ∧
    Repository.config (Repository.from_raw 1) { status := 0, ptr := 7 } =
      Repository.config (Repository.from_raw 2) { status := 0, ptr := 7 } := by
  exact ⟨by decide, rfl, rfl⟩

/-- Claim C2 (amended): the factory methods building object, reference,
remote, submodule, commit, tree, blob, branch and the reference and branch
iterators pass the repository to the child constructor, so the constructed
child carries a back-reference to exactly the creating repository; but the
index() and config() factories construct their values from the raw pointer
alone — the result contains no repository back-reference and is entirely
independent of the repository handle used to create it. -/
theorem child_handles_parent_binding :
    ∀ (r r2 : Repository) (p : Ptr) (eng : EngineOut),
      (Object.from_raw r p).repo = r ∧
      (Reference.from_raw r p).repo = r ∧
      (Remote.from_raw r p).repo = r ∧
      (Submodule.from_raw r p).repo = r ∧
      (Commit.from_raw r p).repo = r ∧
      (Tree.from_raw r p).repo = r ∧
      (Blob.from_raw r p).repo = r ∧
      (References.from_raw r p).repo = r ∧
      (Branches.from_raw r p).repo = r ∧
      (Branch.wrap (Reference.from_raw r p)).inner.repo = r ∧
      Repository.index r eng = Repository.index r2 eng ∧
      Repository.config r eng = Repository.config r2 eng := by
  intro r r2 p eng
  exact ⟨rfl, rfl, rfl, rfl, rfl, rfl, rfl, rfl, rfl, rfl, rfl, rfl⟩

/-- Claim C3 counterexample: the engine reports success (status 0) while the
output pointer is null; Repository::open performs no null check and returns
Ok of a handle wrapping the null pointer — no fatal invariant breach
occurs. -/
theorem open_null_on_success_not_fatal :
    Repository.open { status := 0, ptr := 0 } = .ok (Repository.from_raw 0) ∧
    Repository.open { status := 0, ptr := 0 } ≠ .fatal := by
  exact ⟨rfl, by decide⟩

/-- Claim C3 (amended): every factory operation either succeeds and returns
a newly constructed handle or fails with a structured error producing no
handle; revparse_single additionally treats a null output pointer alongside
an engine success status as a fatal invariant breach, but open performs no
null check on its output pointer and wraps whatever pointer the engine
produced, including null. -/
theorem factory_success_or_error_shape :
    ∀ (self : Repository) (eng : EngineOut),
      (eng.status < 0 →
        Repository.open eng = .err { code := eng.status, klass := .generic } ∧
        Repository.revparse_single self eng =
          .err { code := eng.status, klass := .generic }) ∧
      (0 ≤ eng.status →
        Repository.open eng = .ok (Repository.from_raw eng.ptr)) ∧
      (0 ≤ eng.status → eng.ptr = 0 →
        Repository.revparse_single self eng = .fatal) ∧
      (0 ≤ eng.status → eng.ptr ≠ 0 →
        Repository.revparse_single self eng = .ok (Object.from_raw self eng.ptr)) := by
  intro self eng
  refine ⟨?_, ?_, ?_, ?_⟩
  · intro h
    constructor
    · simp [Repository.open, tryCall, Outcome.bind, h]
    · simp [Repository.revparse_single, tryCall, Outcome.bind, h]
  · intro h
    simp [Repository.open, tryCall, Outcome.bind, not_lt.mpr h]
  · intro h1 h2
    simp [Repository.revparse_single, tryCall, Outcome.bind, not_lt.mpr h1, h2]
  · intro h1 h2
    simp [Repository.revparse_single, tryCall, Outcome.bind, not_lt.mpr h1, h2]

/-- Witness for C3 at concrete engine outputs: a failed open yields the
structured error, a successful open yields the wrapped handle, a successful
revparse_single with null pointer aborts fatally and with a real pointer
yields the object. -/
theorem factory_success_or_error_shape_witness :
    Repository.open { status := -1, ptr := 0 } =
      .err { code := -1, klass := .generic } ∧
    Repository.open { status := 0, ptr := 5 } = .ok (Repository.from_raw 5) ∧
    Repository.revparse_single (Repository.from_raw 1) { status := 0, ptr := 0 } = .fatal ∧
    Repository.revparse_single (Repository.from_raw 1) { status := 0, ptr := 5 } =
      .ok (Object.from_raw (Repository.from_raw 1) 5) := by
  refine ⟨?_, ?_, ?_, ?_⟩
  · exact ((factory_success_or_error_shape (Repository.from_raw 1)
      { status := -1, ptr := 0 }).1 (by decide)).1
  · exact (factory_success_or_error_shape (Repository.from_raw 1)
      { status := 0, ptr := 5 }).2.1 (by decide)
  · exact (factory_success_or_error_shape (Repository.from_raw 1)
      { status := 0, ptr := 0 }).2.2.1 (by decide) (by decide)
  · exact (factory_success_or_error_shape (Repository.from_raw 1)
      { status := 0, ptr := 5 }).2.2.2 (by decide) (by decide)

/-- Claim C5: when commit is called with an update_ref naming a reference
that already exists, the engine requires the current target of that
reference to equal the first parent of the new commit: on mismatch the call
fails with a non-fast-forward class error and the reference store is left
unchanged; on match it returns the new commit hash and the reference is
advanced to it.  (spec-modelled: git_commit_create is engine code, not
under src/; its reference-update contract is modelled from the spec.) -/
theorem commit_update_ref_fast_forward :
    ∀ (self : Repository) (st : EngineState) (name : String)
      (author committer : Signature) (message : String) (tree : Ptr)
      (p : Ptr) (rest : List Ptr) (oidOf : Ptr → Oid) (newOid : Oid) (cur : Oid),
      lookupEntry st.refs name = some cur →
      (cur ≠ oidOf p →
        Repository.commit self st (some name) author committer message tree
            (p :: rest) oidOf newOid
          = (.err nonFastForwardError, st)) ∧
      (cur = oidOf p →
        Repository.commit self st (some name) author committer message tree
            (p :: rest) oidOf newOid
          = (.ok newOid, { refs := setRef st.refs name newOid }) ∧
        lookupEntry (setRef st.refs name newOid) name = some newOid) := by
  intro self st name author committer message tree p rest oidOf newOid cur hcur
  constructor
  · intro hne
    simp [Repository.commit, Repository.commitCall, engineCommitCreate, hcur, hne]
  · intro heq
    refine ⟨?_, lookupEntry_setRef_self st.refs name newOid⟩
    simp [Repository.commit, Repository.commitCall, engineCommitCreate, hcur, heq]

/-- Witness for C5 at a concrete reference store: HEAD currently at hash 10;
committing with first parent 11 fails as non-fast-forward and leaves the
store unchanged, while committing with first parent 10 returns the new hash
42 and advances HEAD to 42. -/
theorem commit_update_ref_fast_forward_witness :
    Repository.commit (Repository.from_raw 1) { refs := [("HEAD", 10)] }
        (some "HEAD") { name := "a", email := "e", time := 0 }
        { name := "a", email := "e", time := 0 } "msg" 3 [11] (fun q => q) 42
      = (.err nonFastForwardError, { refs := [("HEAD", 10)] }) ∧
    Repository.commit (Repository.from_raw 1) { refs := [("HEAD", 10)] }
        (some "HEAD") { name := "a", email := "e", time := 0 }
        { name := "a", email := "e", time := 0 } "msg" 3 [10] (fun q => q) 42
      = (.ok 42, { refs := [("HEAD", 42)] }) := by
  constructor
  · exact (commit_update_ref_fast_forward (Repository.from_raw 1)
      { refs := [("HEAD", 10)] } "HEAD" { name := "a", email := "e", time := 0 }
      { name := "a", email := "e", time := 0 } "msg" 3 11 [] (fun q => q) 42 10
      (by decide)).1 (by decide)
  · exact (((commit_update_ref_fast_forward (Repository.from_raw 1)
      { refs := [("HEAD", 10)] } "HEAD" { name := "a", email := "e", time := 0 }
      { name := "a", email := "e", time := 0 } "msg" 3 10 [] (fun q => q) 42 10
      (by decide)).2 (by decide)).1).trans (by decide)

/-- Helper: when every delivered name looks up with a zero result, the
callback traversal collects one submodule per name, in callback order,
appended after the accumulator. -/
theorem foreachCollect_all_ok (repo : Repository) (lookup : String → Int × Ptr) :
    ∀ (names : List String) (acc : List Submodule),
      (∀ n ∈ names, (lookup n).1 = 0) →
      foreachCollect repo lookup names acc =
        .ok (acc ++ names.map (fun n => Submodule.from_raw repo (lookup n).2)) := by
  intro names
  induction names with
  | nil => intro acc _; simp [foreachCollect]
  | cons n rest ih =>
    intro acc h
    have h0 : (lookup n).1 = 0 := h n (by simp)
    have hr : ∀ m ∈ rest, (lookup m).1 = 0 := fun m hm => h m (by simp [hm])
    simp [foreachCollect, append, h0, Outcome.bind, ih _ hr]

/-- Helper: if any delivered name looks up with a non-zero result, the
callback traversal aborts fatally. -/
theorem foreachCollect_fatal_of_bad (repo : Repository) (lookup : String → Int × Ptr) :
    ∀ (names : List String) (acc : List Submodule) (n : String),
      n ∈ names → (lookup n).1 ≠ 0 →
      foreachCollect repo lookup names acc = .fatal := by
  intro names
  induction names with
  | nil => intro acc n h _; cases h
  | cons m rest ih =>
    intro acc n hmem hbad
    by_cases hm : (lookup m).1 = 0
    · have hn : n ∈ rest := by
        rcases List.mem_cons.mp hmem with h | h
        · subst h; exact absurd hm hbad
        · exact h
      simp [foreachCollect, append, hm, Outcome.bind, ih _ n hn hbad]
    · simp [foreachCollect, append, hm, Outcome.bind]

/-- Claim C6: submodules collects the engine callback invocations into the
returned vector before returning, preserving callback order as vector
order, and a non-zero result from the lookup of any delivered name is a
fatal assertion failure rather than a recoverable error. -/
theorem submodules_order_and_lookup_invariant :
    ∀ (self : Repository) (names : List String) (lookup : String → Int × Ptr)
      (status : Int),
      ((∀ n ∈ names, (lookup n).1 = 0) → 0 ≤ status →
        Repository.submodules self names lookup status =
          .ok (names.map (fun n => Submodule.from_raw self (lookup n).2))) ∧
      (∀ n ∈ names, (lookup n).1 ≠ 0 →
        Repository.submodules self names lookup status = .fatal) := by
  intro self names lookup status
  constructor
  · intro hall hst
    simp [Repository.submodules, foreachCollect_all_ok self lookup names [] hall,
          Outcome.bind, tryCall, not_lt.mpr hst]
  · intro n hn hbad
    simp [Repository.submodules,
          foreachCollect_fatal_of_bad self lookup names [] n hn hbad, Outcome.bind]

/-- Witness for C6 at a concrete enumeration: two names looked up
successfully are collected in callback order, and a name whose lookup
returns a non-zero result aborts fatally. -/
theorem submodules_order_and_lookup_invariant_witness :
    Repository.submodules (Repository.from_raw 1) ["a", "b"]
        (fun s => if s = "a" then (0, 4) else (0, 5)) 0
      = .ok [Submodule.from_raw (Repository.from_raw 1) 4,
             Submodule.from_raw (Repository.from_raw 1) 5] ∧
    Repository.submodules (Repository.from_raw 1) ["a", "b"]
        (fun s => if s = "a" then (0, 4) else (1, 0)) 0 = .fatal := by
  constructor
  · exact ((submodules_order_and_lookup_invariant (Repository.from_raw 1) ["a", "b"]
      (fun s => if s = "a" then (0, 4) else (0, 5)) 0).1
      (by decide) (by decide)).trans (by decide)
  · exact (submodules_order_and_lookup_invariant (Repository.from_raw 1) ["a", "b"]
      (fun s => if s = "a" then (0, 4) else (1, 0)) 0).2 "b" (by decide) (by decide)

/-- Claim C7: for any repository whose head is resolvable (the engine
resolution of HEAD yields an object), revparse_single on HEAD and the from
endpoint of revparse on HEAD are objects with identical content hashes.
(spec-modelled: the two engine resolution entry points are engine code, not
under src/; both are modelled over the same resolution function.) -/
theorem revparse_agreement_on_head :
    ∀ (e : EngineResolver) (self : Repository) (p : Ptr) (o1 o2 : Object)
      (rev : Revspec),
      e.resolve "HEAD" = some p → p ≠ 0 →
      Repository.revparse_single self (engineRevparseSingle e "HEAD") = .ok o1 →
      Repository.revparse self (engineRevparse e "HEAD") = .ok rev →
      rev.frm = some o2 →
      Object.id e o1 = Object.id e o2 := by
  intro e self p o1 o2 rev hres hp h1 h2 hfrm
  have e1 : Repository.revparse_single self (engineRevparseSingle e "HEAD") =
      .ok (Object.from_raw self p) := by
    simp [Repository.revparse_single, engineRevparseSingle, hres, tryCall,
          Outcome.bind, hp]
  have e2 : Repository.revparse self (engineRevparse e "HEAD") =
      .ok (Revspec.from_objects (some (Object.from_raw self p)) none) := by
    simp [Repository.revparse, engineRevparse, hres, tryCall, Outcome.bind]
  rw [e1] at h1
  rw [e2] at h2
  injection h1 with h1
  injection h2 with h2
  rw [← h2] at hfrm
  simp [Revspec.from_objects] at hfrm
  rw [← h1, ← hfrm]

/-- Witness for C7 at the concrete resolver where HEAD resolves to object
pointer 7: both resolution paths succeed and the resulting content hashes
coincide. -/
theorem revparse_agreement_on_head_witness :
    Object.id headResolver (Object.from_raw (Repository.from_raw 1) 7) =
      Object.id headResolver (Object.from_raw (Repository.from_raw 1) 7) := by
  exact revparse_agreement_on_head headResolver (Repository.from_raw 1) 7
    (Object.from_raw (Repository.from_raw 1) 7)
    (Object.from_raw (Repository.from_raw 1) 7)
    (Revspec.from_objects (some (Object.from_raw (Repository.from_raw 1) 7)) none)
    (by decide) (by decide) (by decide) (by decide) (by decide)

/-- Helper: lookup distributes over list append, falling through to the
second list when the first has no entry for the key. -/
theorem lookupEntry_append (l1 l2 : List (String × Oid)) (k : String) :
    lookupEntry (l1 ++ l2) k =
      match lookupEntry l1 k with
      | some v => some v
      | none => lookupEntry l2 k := by
  induction l1 with
  | nil => simp [lookupEntry]
  | cons e rest ih =>
    by_cases h : e.1 = k
    · simp [lookupEntry, h]
    · simp [lookupEntry, h, ih]

/-- Helper: dropping the entries whose path is in the path list does not
change lookup results for keys outside the path list. -/
theorem lookupEntry_dropPaths_not_mem (paths : List String)
    (l : List (String × Oid)) (k : String) (hk : k ∉ paths) :
    lookupEntry (dropPaths paths l) k = lookupEntry l k := by
  induction l with
  | nil => rfl
  | cons e rest ih =>
    by_cases hmem : e.1 ∈ paths
    · have hne : ¬(e.1 = k) := fun hek => hk (hek ▸ hmem)
      simp only [dropPaths, if_pos hmem, lookupEntry, if_neg hne, ih]
    · simp only [dropPaths, if_neg hmem, lookupEntry, ih]

/-- Helper: dropping the entries whose path is in the path list leaves no
entry for a key inside the path list. -/
theorem lookupEntry_dropPaths_mem (paths : List String)
    (l : List (String × Oid)) (k : String) (hk : k ∈ paths) :
    lookupEntry (dropPaths paths l) k = none := by
  induction l with
  | nil => rfl
  | cons e rest ih =>
    by_cases hmem : e.1 ∈ paths
    · simp only [dropPaths, if_pos hmem, ih]
    · have hne : ¬(e.1 = k) := fun hek => hmem (hek ▸ hk)
      simp only [dropPaths, if_neg hmem, lookupEntry, if_neg hne, ih]

/-- Helper: looking up a key in the per-path entries taken from a target
tree yields the tree entry when the key is among the paths and nothing
otherwise. -/
theorem lookupEntry_entriesFromTree (tree : List (String × Oid)) :
    ∀ (paths : List String) (k : String),
      lookupEntry (entriesFromTree tree paths) k =
        if k ∈ paths then lookupEntry tree k else none := by
  intro paths
  induction paths with
  | nil => intro k; simp [entriesFromTree, lookupEntry]
  | cons q rest ih =>
    intro k
    by_cases hq : q = k
    · subst hq
      cases ht : lookupEntry tree q with
      | none =>
        simp only [entriesFromTree, ht, ih]
        by_cases hr : q ∈ rest
        · simp [hr, ht]
        · simp [hr, ht]
      | some o =>
        simp only [entriesFromTree, ht]
        simp [lookupEntry, ht]
    · have hkq : ¬(k = q) := fun h => hq h.symm
      cases ht : lookupEntry tree q with
      | none =>
        simp only [entriesFromTree, ht, ih]
        simp [hkq]
      | some o =>
        simp only [entriesFromTree, ht]
        simp [lookupEntry, hq, ih, hkq]

/-- Claim C9: reset_default restricts the index entries it updates to
exactly the given path set — entries outside the path set keep their
original lookup result, a path in the set takes the entry of the target
tree at that path — and a None target removes the matching paths from the
index rather than resetting them; on an engine success status the wrapper
returns unit with the update applied, and on an engine failure status it
returns the structured error with the index unchanged.
(spec-modelled: git_reset_default is engine code, not under src/; its
path-scoped update contract is modelled from the spec; the wrapper routes
the engine status through try_call as at src line 293.) -/
theorem reset_default_scoped_paths :
    ∀ (self : Repository) (index tree : List (String × Oid))
      (target : Option (List (String × Oid))) (paths : List String)
      (q : String) (status : Int),
      (q ∉ paths →
        lookupEntry (engineResetDefault index target paths) q = lookupEntry index q) ∧
      (q ∈ paths →
        lookupEntry (engineResetDefault index none paths) q = none) ∧
      (q ∈ paths →
        lookupEntry (engineResetDefault index (some tree) paths) q =
          lookupEntry tree q) ∧
      (0 ≤ status →
        Repository.reset_default self index target paths status =
          (.ok (), engineResetDefault index target paths)) ∧
      (status < 0 →
        Repository.reset_default self index target paths status =
          (.err { code := status, klass := .generic }, index)) := by
  intro self index tree target paths q status
  refine ⟨?_, ?_, ?_, ?_, ?_⟩
  · intro hq
    cases target with
    | none => exact lookupEntry_dropPaths_not_mem paths index q hq
    | some t =>
      simp only [engineResetDefault]
      rw [lookupEntry_append, lookupEntry_dropPaths_not_mem paths index q hq,
          lookupEntry_entriesFromTree]
      cases hl : lookupEntry index q <;> simp [hq]
  · intro hq
    exact lookupEntry_dropPaths_mem paths index q hq
  · intro hq
    simp only [engineResetDefault]
    rw [lookupEntry_append, lookupEntry_dropPaths_mem paths index q hq,
        lookupEntry_entriesFromTree]
    simp [hq]
  · intro h
    simp [Repository.reset_default, tryCall, not_lt.mpr h]
  · intro h
    simp [Repository.reset_default, tryCall, h]

/-- Witness for C9 at a concrete index: with paths ["a"], the entry at "b"
is untouched, a None target removes the entry at "a", a target tree
carrying "a" at hash 9 resets the entry at "a" to 9; a success status
returns unit with the updated index and a failing status returns the
structured error with the index unchanged. -/
theorem reset_default_scoped_paths_witness :
    lookupEntry (engineResetDefault [("a", 1), ("b", 2)] none ["a"]) "b" = some 2 ∧
    lookupEntry (engineResetDefault [("a", 1), ("b", 2)] none ["a"]) "a" = none ∧
    lookupEntry (engineResetDefault [("a", 1), ("b", 2)] (some [("a", 9)]) ["a"]) "a"
      = some 9 ∧
    Repository.reset_default (Repository.from_raw 1) [("a", 1), ("b", 2)] none ["a"] 0
      = (.ok (), engineResetDefault [("a", 1), ("b", 2)] none ["a"]) ∧
    Repository.reset_default (Repository.from_raw 1) [("a", 1), ("b", 2)] none ["a"] (-4)
      = (.err { code := -4, klass := .generic }, [("a", 1), ("b", 2)]) := by
  refine ⟨?_, ?_, ?_, ?_, ?_⟩
  · exact ((reset_default_scoped_paths (Repository.from_raw 1) [("a", 1), ("b", 2)]
      [] none ["a"] "b" 0).1 (by decide)).trans (by decide)
  · exact (reset_default_scoped_paths (Repository.from_raw 1) [("a", 1), ("b", 2)]
      [] none ["a"] "a" 0).2.1 (by decide)
  · exact ((reset_default_scoped_paths (Repository.from_raw 1) [("a", 1), ("b", 2)]
      [("a", 9)] (some [("a", 9)]) ["a"] "a" 0).2.2.1 (by decide)).trans (by decide)
  · exact (reset_default_scoped_paths (Repository.from_raw 1) [("a", 1), ("b", 2)]
      [] none ["a"] "a" 0).2.2.2.1 (by decide)
  · exact (reset_default_scoped_paths (Repository.from_raw 1) [("a", 1), ("b", 2)]
      [] none ["a"] "a" (-4)).2.2.2.2 (by decide)

end Git2
